import Mathlib

/-!
# Verification of the transaction/note commitment and validation layer

Shallow embedding of the core of the repository: the note-asset container
(`NoteAssets`, src/objects/src/notes/assets.rs), the transaction identity
(`TransactionId`, src/objects/src/transaction/transaction_id.rs), the proven
transaction builder (`ProvenTransactionBuilder`,
src/objects/src/transaction/proven_tx.rs) and the standardized note templates
(src/miden-lib/src/notes/mod.rs).

Machine integers are modelled as `Nat` with explicit `% 2^w` where overflow
matters.  Fallible operations return `Except`.  Components of the repository
that are not part of the provided sources (the hash primitive, `Asset`,
`AccountId`, `InputNotes`/`OutputNotes`, `Note`) are modelled from the spec,
each marked `Modelled from the spec:` in its doc comment.
-/

set_option maxRecDepth 4096

-- ==============================================================================
-- Field elements, words and digests
-- ==============================================================================

/-- A base field element.  The claims only move field elements around and
compare them, so we model `Felt` as `Nat`. -/
abbrev Felt := Nat

/-- The zero field element (`ZERO` in the source). -/
def FELT_ZERO : Felt := 0

/-- A `Word` is an array of four field elements (`[Felt; 4]` in the source). -/
structure Word4 where
  w0 : Felt
  w1 : Felt
  w2 : Felt
  w3 : Felt
deriving DecidableEq, Repr

/-- The element sequence of a word, in index order. -/
def Word4.toList (w : Word4) : List Felt := [w.w0, w.w1, w.w2, w.w3]

/-- `Word::default()`: the all-zero word. -/
def Word4.zero : Word4 := ⟨0, 0, 0, 0⟩

/-- A digest is four field elements (`RpoDigest` in the source). -/
abbrev Digest := Word4

/-- `Digest::default()`: the all-zero digest, used as the "no prior state"
sentinel. -/
def Digest.default : Digest := Word4.zero

/-- `Digest::as_elements()`. -/
def Digest.as_elements (d : Digest) : List Felt := d.toList

/-- Modelled from the spec: the fixed cryptographic hash primitive
(`Hasher::hash_elements`, i.e. `Rpo256::hash_elements`) is an external
collaborator, absent from the provided sources.  We model it as a
deterministic absorption of the element sequence (an FNV-style rolling hash
over the elements together with the sequence length), which is a pure
function of the exact ordered element list.  Its second coordinate is `1`, so
a hash output never equals the all-zero sentinel digest, matching the spec's
"the sentinel is never a legitimate hash" assumption. -/
def Hasher.hash_elements (xs : List Felt) : Digest :=
  ⟨xs.foldl (fun acc x => (acc * 1099511628211 + x + 1) % 2 ^ 64) (xs.length % 2 ^ 64),
    1, 0, 0⟩

-- ==============================================================================
-- Accounts and assets (modelled from the spec)
-- ==============================================================================

/-- Modelled from the spec: an account identifier.  The source's `AccountId`
(a u64 whose bits encode the storage mode) is not among the provided files;
per the spec's data model an account is either on-chain (state publicly
replicated) or off-chain, so we carry the storage-mode bit explicitly next to
the numeric id. -/
structure AccountId where
  id : Nat
  on_chain : Bool
deriving DecidableEq, Repr

/-- `AccountId::is_on_chain()`. -/
def AccountId.is_on_chain (a : AccountId) : Bool := a.on_chain

/-- Modelled from the spec: the field-element image of an account id
(`impl From<AccountId> for Felt`); an injective packing of the id and the
storage-mode bit. -/
def AccountId.toFelt (a : AccountId) : Felt :=
  2 * a.id + (if a.on_chain then 1 else 0)

/-- Modelled from the spec: an asset is a tagged variant —
`Fungible{faucet_id, amount}` or `NonFungible{id}` — with a fixed-width
4-element word representation. -/
inductive Asset
  | Fungible (faucet_id : AccountId) (amount : Nat)
  | NonFungible (id : Word4)
deriving DecidableEq, Repr

/-- Modelled from the spec: `Asset::is_same` — two fungible assets are the
same asset iff they share a faucet id; two non-fungible assets are the same
iff their identities are identical. -/
def Asset.is_same : Asset → Asset → Bool
  | .Fungible f _, .Fungible g _ => f = g
  | .NonFungible a, .NonFungible b => a = b
  | _, _ => false

/-- Modelled from the spec: the fixed-width one-word representation of an
asset (`impl From<Asset> for Word`). -/
def Asset.toWord : Asset → Word4
  | .Fungible f amount => ⟨amount, 0, 0, f.toFelt⟩
  | .NonFungible w => w

-- ==============================================================================
-- NoteAssets (src/objects/src/notes/assets.rs)
-- ==============================================================================

/-- The errors `NoteAssets::new` can produce (`NoteError` in the source,
restricted to the constructors this layer raises). -/
inductive NoteError
  | EmptyAssetList
  | TooManyAssets (num : Nat)
  | DuplicateFungibleAsset (faucet_id : AccountId)
  | DuplicateNonFungibleAsset (asset : Word4)
deriving DecidableEq, Repr

/-- `NoteAssets::MAX_NUM_ASSETS`. -/
def MAX_NUM_ASSETS : Nat := 255

/-- An asset container for a note (`NoteAssets`).  The `hash` field models
the `OnceCell<Digest>` memoization cell: `none` when the cell is empty,
`some d` after `d` has been stored. -/
structure NoteAssets where
  assets : List Asset
  hash : Option Digest
deriving DecidableEq, Repr

/-- The duplicate scan of `NoteAssets::new`: for each index `i` (except the
last) check whether any later asset `is_same` as `assets[i]`; the first such
asset is returned. -/
def firstDuplicate : List Asset → Option Asset
  | [] => none
  | a :: rest =>
    if rest.any (fun b => b.is_same a) then some a else firstDuplicate rest

/-- `NoteAssets::new`: fails on an empty list, on more than 255 assets, and
on a duplicate asset (with the error variant matching the duplicated
asset's kind); otherwise stores the list with an empty memo cell. -/
def NoteAssets.new (assets : List Asset) : Except NoteError NoteAssets :=
  if assets.isEmpty then .error .EmptyAssetList
  else if assets.length > MAX_NUM_ASSETS then .error (.TooManyAssets assets.length)
  else
    match firstDuplicate assets with
    | some (.Fungible f _) => .error (.DuplicateFungibleAsset f)
    | some (.NonFungible w) => .error (.DuplicateNonFungibleAsset w)
    | none => .ok { assets := assets, hash := none }

/-- `compute_asset_commitment`: sequentially hash the assets, each
represented by its 4-element word, with one all-zero word appended when the
asset count is odd. -/
def compute_asset_commitment (assets : List Asset) : Digest :=
  Hasher.hash_elements
    ((assets.flatMap fun a => a.toWord.toList) ++
      (if assets.length % 2 == 1 then Word4.zero.toList else []))

/-- `NoteAssets::commitment`: `hash.get_or_init(|| compute_asset_commitment ...)`
— return the memoized digest when the cell is full, otherwise the freshly
computed commitment. -/
def NoteAssets.commitment (a : NoteAssets) : Digest :=
  match a.hash with
  | some d => d
  | none => compute_asset_commitment a.assets

/-- The state change performed by `get_or_init`: after the first call to
`commitment` the cell holds the returned digest. -/
def NoteAssets.memoize (a : NoteAssets) : NoteAssets :=
  { a with hash := some a.commitment }

/-- The memo-cell invariant every reachable `NoteAssets` satisfies: the cell
is either empty or holds exactly the commitment of the stored assets. -/
def NoteAssets.WF (a : NoteAssets) : Prop :=
  a.hash = none ∨ a.hash = some (compute_asset_commitment a.assets)

/-- `NoteAssets::num_assets`. -/
def NoteAssets.num_assets (a : NoteAssets) : Nat := a.assets.length

/-- `NoteAssets::to_padded_assets`: the asset words flattened, resized with
zeros up to `len * 4` (even count) or `(len + 1) * 4` (odd count) elements.
`Vec::resize` truncates or extends to the target length, which we model with
`take` and `replicate`. -/
def NoteAssets.to_padded_assets (a : NoteAssets) : List Felt :=
  let padded_len :=
    if a.assets.length % 2 == 0 then a.assets.length * 4
    else (a.assets.length + 1) * 4
  let padded_assets := a.assets.flatMap fun x => x.toWord.toList
  padded_assets.take padded_len ++
    List.replicate (padded_len - padded_assets.length) FELT_ZERO

-- ==============================================================================
-- Byte-level serialization primitives
-- ==============================================================================

/-- The error type of deserialization (`DeserializationError` in the source,
restricted to the variants this layer raises). -/
inductive DeserializationError
  | UnexpectedEOF
  | InvalidValue (msg : String)
deriving DecidableEq, Repr

/-- A byte is a `Nat`; readers mask with `% 256` so that any `List Nat`
is a valid input stream. -/
abbrev ByteStream := List Nat

/-- Little-endian encoding of `x` into `width` bytes. -/
def encodeLE (width x : Nat) : ByteStream :=
  match width with
  | 0 => []
  | w + 1 => x % 256 :: encodeLE w (x / 256)

/-- Little-endian decoding of a byte list. -/
def decodeLE (bytes : ByteStream) : Nat :=
  bytes.foldr (fun b acc => acc * 256 + b % 256) 0

/-- Read exactly `n` bytes from the stream, or fail with `UnexpectedEOF`. -/
def readBytes (n : Nat) (bs : ByteStream) :
    Except DeserializationError (ByteStream × ByteStream) :=
  if bs.length < n then .error .UnexpectedEOF
  else .ok (bs.take n, bs.drop n)

/-- Write one field element as 8 little-endian bytes. -/
def Felt.write_into (x : Felt) : ByteStream := encodeLE 8 x

/-- Read one field element (8 little-endian bytes). -/
def Felt.read_from (bs : ByteStream) :
    Except DeserializationError (Felt × ByteStream) := do
  let (chunk, rest) ← readBytes 8 bs
  .ok (decodeLE chunk, rest)

/-- Write a word as its four elements, 32 bytes total. -/
def Word4.write_into (w : Word4) : ByteStream :=
  w.toList.flatMap Felt.write_into

/-- Read a word (four 8-byte elements). -/
def Word4.read_from (bs : ByteStream) :
    Except DeserializationError (Word4 × ByteStream) := do
  let (a, bs) ← Felt.read_from bs
  let (b, bs) ← Felt.read_from bs
  let (c, bs) ← Felt.read_from bs
  let (d, bs) ← Felt.read_from bs
  .ok (⟨a, b, c, d⟩, bs)

/-- Modelled from the spec: the byte image of an account id — the packed
field element of the id, 8 little-endian bytes. -/
def AccountId.write_into (a : AccountId) : ByteStream :=
  Felt.write_into a.toFelt

/-- Modelled from the spec: decode an account id from its packed field
element. -/
def AccountId.read_from (bs : ByteStream) :
    Except DeserializationError (AccountId × ByteStream) := do
  let (x, bs) ← Felt.read_from bs
  .ok (⟨x / 2, x % 2 == 1⟩, bs)

-- ==============================================================================
-- Asset serialization (modelled from the spec: fixed-width asset encodings)
-- ==============================================================================

/-- Modelled from the spec: the fixed-width encoding of one asset — a
variant byte followed by the asset's 4-element word (33 bytes in all). -/
def Asset.write_into : Asset → ByteStream
  | .Fungible f amount => 0 :: Word4.write_into (Asset.toWord (.Fungible f amount))
  | .NonFungible w => 1 :: Word4.write_into w

/-- Modelled from the spec: decode one fixed-width asset encoding. -/
def Asset.read_from (bs : ByteStream) :
    Except DeserializationError (Asset × ByteStream) :=
  match bs with
  | [] => .error .UnexpectedEOF
  | tag :: rest => do
    let (w, rest) ← Word4.read_from rest
    match tag % 256 with
    | 0 => .ok (.Fungible ⟨w.w3 / 2, w.w3 % 2 == 1⟩ w.w0, rest)
    | 1 => .ok (.NonFungible w, rest)
    | _ => .error (.InvalidValue "unknown asset variant")

/-- `Asset::read_batch_from`: decode `count` consecutive asset encodings. -/
def Asset.read_batch_from (count : Nat) (bs : ByteStream) :
    Except DeserializationError (List Asset × ByteStream) :=
  match count with
  | 0 => .ok ([], bs)
  | n + 1 => do
    let (a, bs) ← Asset.read_from bs
    let (tail, bs) ← Asset.read_batch_from n bs
    .ok (a :: tail, bs)

-- ==============================================================================
-- NoteAssets serialization (src/objects/src/notes/assets.rs, lines 151-166)
-- ==============================================================================

/-- `impl Serializable for NoteAssets`: one byte holding `count - 1` (the
`as u8` cast wraps modulo 256), followed by the asset encodings. -/
def NoteAssets.write_into (a : NoteAssets) : ByteStream :=
  (a.assets.length - 1) % 256 :: a.assets.flatMap Asset.write_into

/-- The outcome of running a fallible Rust function that can also abort:
`ok`/`err` mirror `Result`, and `panicked` marks an aborted execution (an
arithmetic-overflow abort in a build with overflow checks). -/
inductive ReadOutcome (α : Type)
  | ok (value : α) (rest : ByteStream)
  | err (e : DeserializationError)
  | panicked
deriving DecidableEq, Repr

/-- `impl Deserializable for NoteAssets`: `let count = source.read_u8()? + 1`
is a `u8` addition — when the count byte is `255` it overflows, which aborts
a build with overflow checks (`debug_assertions = true`) and wraps to `0`
otherwise; then `count` assets are read and the construction-time validation
`NoteAssets::new` is re-run, its error mapped to `InvalidValue`. -/
def NoteAssets.read_from (debug_assertions : Bool) (bs : ByteStream) :
    ReadOutcome NoteAssets :=
  match bs with
  | [] => .err .UnexpectedEOF
  | b :: rest =>
    if debug_assertions && b % 256 == 255 then .panicked
    else
      let count := (b % 256 + 1) % 256
      match Asset.read_batch_from count rest with
      | .error e => .err e
      | .ok (assets, rest) =>
        match NoteAssets.new assets with
        | .error e => .err (.InvalidValue (reprStr e))
        | .ok a => .ok a rest

-- ==============================================================================
-- Notes, nullifiers, note collections
-- ==============================================================================

/-- Modelled from the spec: a nullifier — a unique value derived from a
consumed note; only equality and hashing are used here. -/
abbrev Nullifier := Nat

/-- Modelled from the spec: a note id; only equality and hashing are used
here. -/
abbrev NoteId := Nat

/-- Modelled from the spec: a content-addressed handle for an
externally-compiled note script. -/
abbrev NoteScript := Nat

/-- Modelled from the spec: `NoteEnvelope` — a lightweight
`{note id, metadata}` reference to a note. -/
structure NoteEnvelope where
  note_id : NoteId
  metadata : Felt
deriving DecidableEq, Repr

/-- Modelled from the spec: a full `Note` —
`{script handle, input elements, NoteAssets, serial number, sender, tag}`. -/
structure Note where
  script : NoteScript
  inputs : List Felt
  assets : NoteAssets
  serial_num : Word4
  sender : AccountId
  tag : Felt
deriving DecidableEq, Repr

/-- Modelled from the spec: `Note::new` validates the asset list through
`NoteAssets::new` and assembles the immutable note value. -/
def Note.new (script : NoteScript) (inputs : List Felt) (assets : List Asset)
    (serial_num : Word4) (sender : AccountId) (tag : Felt) :
    Except NoteError Note := do
  let note_assets ← NoteAssets.new assets
  .ok { script, inputs, assets := note_assets, serial_num, sender, tag }

/-- `MAX_INPUT_NOTES_PER_TX` (src/objects/src/lib.rs). -/
def MAX_INPUT_NOTES_PER_TX : Nat := 1023

/-- `MAX_OUTPUT_NOTES_PER_TX` (src/objects/src/lib.rs). -/
def MAX_OUTPUT_NOTES_PER_TX : Nat := 4096

/-- The first element of the list that occurs again later, if any. -/
def firstRepeat {α : Type} [DecidableEq α] : List α → Option α
  | [] => none
  | a :: rest => if rest.contains a then some a else firstRepeat rest

/-- Errors of `InputNotes::new` (modelled from the spec: repeated nullifier
or more than 1023 input notes). -/
inductive TransactionInputError
  | DuplicateInputNote (nullifier : Nullifier)
  | TooManyInputNotes (num : Nat)
deriving DecidableEq, Repr

/-- Errors of `OutputNotes::new` (modelled from the spec: repeated note id
or more than 4096 output notes). -/
inductive TransactionOutputError
  | DuplicateOutputNote (note_id : NoteId)
  | TooManyOutputNotes (num : Nat)
deriving DecidableEq, Repr

/-- Modelled from the spec: `InputNotes<Nullifier>` — an ordered sequence of
nullifiers with no duplicates and at most 1023 entries. -/
structure InputNotes where
  notes : List Nullifier
deriving DecidableEq, Repr

/-- Modelled from the spec: `InputNotes::new` — fails on a repeated
nullifier or on exceeding the input cap. -/
def InputNotes.new (notes : List Nullifier) :
    Except TransactionInputError InputNotes :=
  if notes.length > MAX_INPUT_NOTES_PER_TX then
    .error (.TooManyInputNotes notes.length)
  else
    match firstRepeat notes with
    | some n => .error (.DuplicateInputNote n)
    | none => .ok ⟨notes⟩

/-- Modelled from the spec: the sequential-hash commitment of an input note
collection. -/
def InputNotes.commitment (x : InputNotes) : Digest :=
  Hasher.hash_elements (x.notes.flatMap fun n => [n, 0, 0, 0])

/-- Modelled from the spec: `OutputNotes<NoteEnvelope>` — an ordered
sequence of note envelopes with no duplicate note ids and at most 4096
entries. -/
structure OutputNotes where
  notes : List NoteEnvelope
deriving DecidableEq, Repr

/-- Modelled from the spec: `OutputNotes::new` — fails on a repeated note id
or on exceeding the output cap. -/
def OutputNotes.new (notes : List NoteEnvelope) :
    Except TransactionOutputError OutputNotes :=
  if notes.length > MAX_OUTPUT_NOTES_PER_TX then
    .error (.TooManyOutputNotes notes.length)
  else
    match firstRepeat (notes.map NoteEnvelope.note_id) with
    | some i => .error (.DuplicateOutputNote i)
    | none => .ok ⟨notes⟩

/-- Modelled from the spec: the sequential-hash commitment of an output note
collection. -/
def OutputNotes.commitment (x : OutputNotes) : Digest :=
  Hasher.hash_elements (x.notes.flatMap fun e => [e.note_id, e.metadata, 0, 0])

-- ==============================================================================
-- Accounts and account details
-- ==============================================================================

/-- Modelled from the spec: a complete account snapshot; only its id and its
state hash are observed by this layer. -/
structure Account where
  id : AccountId
  hash : Digest
deriving DecidableEq, Repr

/-- Modelled from the spec: an incremental account state change, opaque to
this layer. -/
structure AccountDelta where
  data : Nat
deriving DecidableEq, Repr

/-- `AccountDetails` (src/objects/src/transaction/proven_tx.rs, lines
18-25): the whole state for new accounts, only the delta for existing
ones. -/
inductive AccountDetails
  | Full (account : Account)
  | Delta (delta : AccountDelta)
deriving DecidableEq, Repr

/-- Modelled from the spec: the proof blob is opaque to this layer. -/
abbrev ExecutionProof := Nat

-- ==============================================================================
-- TransactionId (src/objects/src/transaction/transaction_id.rs)
-- ==============================================================================

/-- `TransactionId`: a digest wrapper. -/
structure TransactionId where
  digest : Digest
deriving DecidableEq, Repr

/-- `TransactionId::new` (release behavior, the `debug_assert_ne!` compiled
out): lay out the four words — the initial account hash or, when absent, the
all-zero default — into 16 elements and hash them once. -/
def TransactionId.new (init_account_hash : Option Digest)
    (final_account_hash input_notes_hash output_notes_hash : Digest) :
    TransactionId :=
  ⟨Hasher.hash_elements
    ((init_account_hash.getD Digest.default).toList ++
      final_account_hash.toList ++ input_notes_hash.toList ++
      output_notes_hash.toList)⟩

/-- The `debug_assert_ne!(init_account_hash, Some(Digest::default()))`
precondition at the head of `TransactionId::new`: it aborts only when debug
assertions are compiled in and the supplied initial hash is the all-zero
sentinel.  Returns `true` when the assertion passes (or is compiled out). -/
def TransactionId.new_assert_ok (debug_assertions : Bool)
    (init_account_hash : Option Digest) : Bool :=
  !debug_assertions || !(init_account_hash == some Digest.default)

/-- `TransactionId::new` as executed in a given build configuration: `none`
models the assertion failure, `some` the constructed id. -/
def TransactionId.new_checked (debug_assertions : Bool)
    (init_account_hash : Option Digest)
    (final_account_hash input_notes_hash output_notes_hash : Digest) :
    Option TransactionId :=
  if TransactionId.new_assert_ok debug_assertions init_account_hash then
    some (TransactionId.new init_account_hash final_account_hash
      input_notes_hash output_notes_hash)
  else none

-- ==============================================================================
-- ProvenTransaction and its builder (src/objects/src/transaction/proven_tx.rs)
-- ==============================================================================

/-- `ProvenTransactionError` (the variants raised by
`ProvenTransactionBuilder::build`). -/
inductive ProvenTransactionError
  | NoteDetailsForUnknownNotes (note_ids : List NoteId)
  | InputNotesError (e : TransactionInputError)
  | OutputNotesError (e : TransactionOutputError)
  | OffChainAccountWithDetails (account_id : AccountId)
  | OnChainAccountMissingDetails (account_id : AccountId)
  | NewOnChainAccountRequiresFullDetails (account_id : AccountId)
  | AccountIdMismatch (tx_account_id : AccountId) (details_account_id : AccountId)
  | AccountFinalHashMismatch (tx_final_hash : Digest) (details_hash : Digest)
  | ExistingOnChainAccountRequiresDeltaDetails (account_id : AccountId)
deriving DecidableEq, Repr

/-- `ProvenTransaction` (lines 29-66): the immutable result record. -/
structure ProvenTransaction where
  id : TransactionId
  account_id : AccountId
  initial_account_hash : Option Digest
  final_account_hash : Digest
  account_details : Option AccountDetails
  input_notes : InputNotes
  output_notes : OutputNotes
  output_note_details : List (NoteId × Note)
  tx_script_root : Option Digest
  block_ref : Digest
  proof : ExecutionProof
deriving DecidableEq, Repr

/-- `impl From<&ProvenTransaction> for TransactionId` (transaction_id.rs,
lines 81-90): recompute the id from the transaction's public fields. -/
def TransactionId.from_proven_tx (tx : ProvenTransaction) : TransactionId :=
  TransactionId.new tx.initial_account_hash tx.final_account_hash
    tx.input_notes.commitment tx.output_notes.commitment

/-- `ProvenTransactionBuilder` (lines 132-165): the accumulation state.  The
`output_note_details` field is the source's `BTreeMap<NoteId, Note>`,
modelled as its association list in key-iteration order. -/
structure ProvenTransactionBuilder where
  account_id : AccountId
  initial_account_hash : Option Digest
  final_account_hash : Digest
  account_details : Option AccountDetails
  input_notes : List Nullifier
  output_notes : List NoteEnvelope
  output_note_details : List (NoteId × Note)
  tx_script_root : Option Digest
  block_ref : Digest
  proof : ExecutionProof
deriving DecidableEq, Repr

/-- `ProvenTransactionBuilder::new` (release behavior, the
`debug_assert_ne!` compiled out). -/
def ProvenTransactionBuilder.new (account_id : AccountId)
    (initial_account_hash : Option Digest) (final_account_hash : Digest)
    (block_ref : Digest) (proof : ExecutionProof) : ProvenTransactionBuilder :=
  { account_id, initial_account_hash, final_account_hash,
    account_details := none, input_notes := [], output_notes := [],
    output_note_details := [], tx_script_root := none, block_ref, proof }

/-- `ProvenTransactionBuilder::new` as executed in a given build
configuration: `none` models the failure of the
`debug_assert_ne!(initial_account_hash, Some(Digest::default()))` at line
179. -/
def ProvenTransactionBuilder.new_checked (debug_assertions : Bool)
    (account_id : AccountId) (initial_account_hash : Option Digest)
    (final_account_hash : Digest) (block_ref : Digest)
    (proof : ExecutionProof) : Option ProvenTransactionBuilder :=
  if TransactionId.new_assert_ok debug_assertions initial_account_hash then
    some (ProvenTransactionBuilder.new account_id initial_account_hash
      final_account_hash block_ref proof)
  else none

/-- The list of disclosed-note keys absent from the output envelope set
(`unknown_ids` in `build`, lines 245-250); the `BTreeMap` iterates its keys
in order, so the filter runs over the association list's key sequence. -/
def ProvenTransactionBuilder.unknown_ids (b : ProvenTransactionBuilder) :
    List NoteId :=
  (b.output_note_details.map Prod.fst).filter fun k =>
    !(b.output_notes.map NoteEnvelope.note_id).contains k

/-- The success record `build` assembles (lines 311-330): the id is computed
from the initial/final account hashes and the note-collection commitments. -/
def ProvenTransactionBuilder.assemble (b : ProvenTransactionBuilder)
    (input_notes : InputNotes) (output_notes : OutputNotes) :
    ProvenTransaction :=
  { id := TransactionId.new b.initial_account_hash b.final_account_hash
      input_notes.commitment output_notes.commitment,
    account_id := b.account_id,
    initial_account_hash := b.initial_account_hash,
    final_account_hash := b.final_account_hash,
    account_details := b.account_details,
    input_notes, output_notes,
    output_note_details := b.output_note_details,
    tx_script_root := b.tx_script_root,
    block_ref := b.block_ref,
    proof := b.proof }

/-- `ProvenTransactionBuilder::build` (lines 243-331), translated branch by
branch: the unknown-details check, the two note-collection constructions,
the off-chain rule, the on-chain four-way matrix, then assembly. -/
def ProvenTransactionBuilder.build (b : ProvenTransactionBuilder) :
    Except ProvenTransactionError ProvenTransaction :=
  if b.unknown_ids ≠ [] then
    .error (.NoteDetailsForUnknownNotes b.unknown_ids)
  else
    match InputNotes.new b.input_notes with
    | .error e => .error (.InputNotesError e)
    | .ok input_notes =>
      match OutputNotes.new b.output_notes with
      | .error e => .error (.OutputNotesError e)
      | .ok output_notes =>
        if !b.account_id.is_on_chain && b.account_details.isSome then
          .error (.OffChainAccountWithDetails b.account_id)
        else if b.account_id.is_on_chain then
          match b.account_details with
          | none => .error (.OnChainAccountMissingDetails b.account_id)
          | some details =>
            let is_new_account := b.initial_account_hash.isNone
            match is_new_account, details with
            | true, .Delta _ =>
              .error (.NewOnChainAccountRequiresFullDetails b.account_id)
            | true, .Full account =>
              if account.id ≠ b.account_id then
                .error (.AccountIdMismatch b.account_id account.id)
              else if account.hash ≠ b.final_account_hash then
                .error (.AccountFinalHashMismatch b.final_account_hash account.hash)
              else
                .ok (b.assemble input_notes output_notes)
            | false, .Full _ =>
              .error (.ExistingOnChainAccountRequiresDeltaDetails b.account_id)
            | false, .Delta _ =>
              .ok (b.assemble input_notes output_notes)
        else
          .ok (b.assemble input_notes output_notes)

-- ==============================================================================
-- Wire encoding of a proven transaction (proven_tx.rs, lines 337-422)
-- ==============================================================================

/-- Lift a plain `Except` reader outcome into `ReadOutcome`. -/
def liftRead {α : Type} : Except DeserializationError (α × ByteStream) → ReadOutcome α
  | .error e => .err e
  | .ok (a, rest) => .ok a rest

/-- `Option<Digest>` encoding: one presence byte, then the payload. -/
def writeOptionDigest : Option Digest → ByteStream
  | none => [0]
  | some d => 1 :: Word4.write_into d

/-- Decode an `Option<Digest>`. -/
def readOptionDigest (bs : ByteStream) :
    Except DeserializationError (Option Digest × ByteStream) :=
  match bs with
  | [] => .error .UnexpectedEOF
  | b :: rest =>
    match b % 256 with
    | 0 => .ok (none, rest)
    | 1 => do
      let (d, rest) ← Word4.read_from rest
      .ok (some d, rest)
    | _ => .error (.InvalidValue "invalid Option tag")

/-- Modelled from the spec: the byte image of a full account snapshot. -/
def Account.write_into (a : Account) : ByteStream :=
  AccountId.write_into a.id ++ Word4.write_into a.hash

/-- Modelled from the spec: decode a full account snapshot. -/
def Account.read_from (bs : ByteStream) :
    Except DeserializationError (Account × ByteStream) := do
  let (i, bs) ← AccountId.read_from bs
  let (h, bs) ← Word4.read_from bs
  .ok (⟨i, h⟩, bs)

/-- Modelled from the spec: the byte image of an account delta. -/
def AccountDelta.write_into (d : AccountDelta) : ByteStream :=
  encodeLE 8 d.data

/-- Modelled from the spec: decode an account delta. -/
def AccountDelta.read_from (bs : ByteStream) :
    Except DeserializationError (AccountDelta × ByteStream) := do
  let (x, bs) ← Felt.read_from bs
  .ok (⟨x⟩, bs)

/-- `impl Serializable for AccountDetails` (lines 337-350): discriminant
byte `0` for `Full`, `1` for `Delta`, then the payload. -/
def AccountDetails.write_into : AccountDetails → ByteStream
  | .Full account => 0 :: Account.write_into account
  | .Delta delta => 1 :: AccountDelta.write_into delta

/-- `impl Deserializable for AccountDetails` (lines 352-362): any
discriminant other than `0`/`1` is a decode error. -/
def AccountDetails.read_from (bs : ByteStream) :
    Except DeserializationError (AccountDetails × ByteStream) :=
  match bs with
  | [] => .error .UnexpectedEOF
  | v :: rest =>
    match v % 256 with
    | 0 => do
      let (a, rest) ← Account.read_from rest
      .ok (.Full a, rest)
    | 1 => do
      let (d, rest) ← AccountDelta.read_from rest
      .ok (.Delta d, rest)
    | _ => .error (.InvalidValue "Unknown variant for AccountDetails")

/-- `Option<AccountDetails>` encoding: one presence byte, then the payload. -/
def writeOptionAccountDetails : Option AccountDetails → ByteStream
  | none => [0]
  | some d => 1 :: AccountDetails.write_into d

/-- Decode an `Option<AccountDetails>`. -/
def readOptionAccountDetails (bs : ByteStream) :
    Except DeserializationError (Option AccountDetails × ByteStream) :=
  match bs with
  | [] => .error .UnexpectedEOF
  | b :: rest =>
    match b % 256 with
    | 0 => .ok (none, rest)
    | 1 => do
      let (d, rest) ← AccountDetails.read_from rest
      .ok (some d, rest)
    | _ => .error (.InvalidValue "invalid Option tag")

/-- Read `n` consecutive 8-byte field elements. -/
def readFelts (n : Nat) (bs : ByteStream) :
    Except DeserializationError (List Felt × ByteStream) :=
  match n with
  | 0 => .ok ([], bs)
  | k + 1 => do
    let (x, bs) ← Felt.read_from bs
    let (tail, bs) ← readFelts k bs
    .ok (x :: tail, bs)

/-- Modelled from the spec: the byte image of an input note collection — a
length prefix followed by the nullifiers. -/
def InputNotes.write_into (x : InputNotes) : ByteStream :=
  encodeLE 8 x.notes.length ++ x.notes.flatMap Felt.write_into

/-- Modelled from the spec: decode an input note collection, re-running the
construction-time validation `InputNotes::new`. -/
def InputNotes.read_from (bs : ByteStream) :
    Except DeserializationError (InputNotes × ByteStream) := do
  let (n, bs) ← Felt.read_from bs
  let (notes, bs) ← readFelts n bs
  match InputNotes.new notes with
  | .error e => .error (.InvalidValue (reprStr e))
  | .ok x => .ok (x, bs)

/-- Modelled from the spec: the byte image of a note envelope. -/
def NoteEnvelope.write_into (e : NoteEnvelope) : ByteStream :=
  encodeLE 8 e.note_id ++ encodeLE 8 e.metadata

/-- Modelled from the spec: decode a note envelope. -/
def NoteEnvelope.read_from (bs : ByteStream) :
    Except DeserializationError (NoteEnvelope × ByteStream) := do
  let (i, bs) ← Felt.read_from bs
  let (m, bs) ← Felt.read_from bs
  .ok (⟨i, m⟩, bs)

/-- Read `n` consecutive note envelopes. -/
def readEnvelopes (n : Nat) (bs : ByteStream) :
    Except DeserializationError (List NoteEnvelope × ByteStream) :=
  match n with
  | 0 => .ok ([], bs)
  | k + 1 => do
    let (e, bs) ← NoteEnvelope.read_from bs
    let (tail, bs) ← readEnvelopes k bs
    .ok (e :: tail, bs)

/-- Modelled from the spec: the byte image of an output note collection — a
length prefix followed by the envelopes. -/
def OutputNotes.write_into (x : OutputNotes) : ByteStream :=
  encodeLE 8 x.notes.length ++ x.notes.flatMap NoteEnvelope.write_into

/-- Modelled from the spec: decode an output note collection, re-running the
construction-time validation `OutputNotes::new`. -/
def OutputNotes.read_from (bs : ByteStream) :
    Except DeserializationError (OutputNotes × ByteStream) := do
  let (n, bs) ← Felt.read_from bs
  let (notes, bs) ← readEnvelopes n bs
  match OutputNotes.new notes with
  | .error e => .error (.InvalidValue (reprStr e))
  | .ok x => .ok (x, bs)

/-- Modelled from the spec: the byte image of a full note. -/
def Note.write_into (n : Note) : ByteStream :=
  encodeLE 8 n.script ++ encodeLE 8 n.inputs.length ++
    n.inputs.flatMap Felt.write_into ++ NoteAssets.write_into n.assets ++
    Word4.write_into n.serial_num ++ AccountId.write_into n.sender ++
    encodeLE 8 n.tag

/-- Modelled from the spec: decode a full note; the embedded asset container
goes through `NoteAssets::read_from` and therefore inherits its abort
behavior in builds with overflow checks. -/
def Note.read_from (debug_assertions : Bool) (bs : ByteStream) :
    ReadOutcome Note :=
  match (do
      let (script, bs) ← Felt.read_from bs
      let (len, bs) ← Felt.read_from bs
      let (inputs, bs) ← readFelts len bs
      .ok ((script, len, inputs), bs) :
      Except DeserializationError ((Nat × Nat × List Felt) × ByteStream)) with
  | .error e => .err e
  | .ok ((script, _, inputs), bs) =>
    match NoteAssets.read_from debug_assertions bs with
    | .panicked => .panicked
    | .err e => .err e
    | .ok assets bs =>
      match (do
          let (serial, bs) ← Word4.read_from bs
          let (sender, bs) ← AccountId.read_from bs
          let (tag, bs) ← Felt.read_from bs
          .ok ((serial, sender, tag), bs) :
          Except DeserializationError ((Word4 × AccountId × Felt) × ByteStream)) with
      | .error e => .err e
      | .ok ((serial, sender, tag), bs) =>
        .ok { script, inputs, assets, serial_num := serial, sender, tag } bs

/-- Read `n` consecutive `(note id, note)` pairs. -/
def readNotePairs (debug_assertions : Bool) (n : Nat) (bs : ByteStream) :
    ReadOutcome (List (NoteId × Note)) :=
  match n with
  | 0 => .ok [] bs
  | k + 1 =>
    match liftRead (Felt.read_from bs) with
    | .panicked => .panicked
    | .err e => .err e
    | .ok i bs =>
      match Note.read_from debug_assertions bs with
      | .panicked => .panicked
      | .err e => .err e
      | .ok note bs =>
        match readNotePairs debug_assertions k bs with
        | .panicked => .panicked
        | .err e => .err e
        | .ok tail bs => .ok ((i, note) :: tail) bs

/-- `impl Serializable for ProvenTransaction` (lines 364-380): the fixed,
order-significant field sequence. -/
def ProvenTransaction.write_into (tx : ProvenTransaction) : ByteStream :=
  AccountId.write_into tx.account_id ++
    writeOptionDigest tx.initial_account_hash ++
    Word4.write_into tx.final_account_hash ++
    writeOptionAccountDetails tx.account_details ++
    InputNotes.write_into tx.input_notes ++
    OutputNotes.write_into tx.output_notes ++
    encodeLE 8 tx.output_note_details.length ++
    (tx.output_note_details.flatMap fun p =>
      encodeLE 8 p.1 ++ Note.write_into p.2) ++
    writeOptionDigest tx.tx_script_root ++
    Word4.write_into tx.block_ref ++
    encodeLE 8 tx.proof

/-- `impl Deserializable for ProvenTransaction` (lines 382-422): decode the
fields in order, recompute only the id, and assemble — no cross-field
validation is performed. -/
def ProvenTransaction.read_from (debug_assertions : Bool) (bs : ByteStream) :
    ReadOutcome ProvenTransaction :=
  match (do
      let (account_id, bs) ← AccountId.read_from bs
      let (initial_account_hash, bs) ← readOptionDigest bs
      let (final_account_hash, bs) ← Word4.read_from bs
      let (account_details, bs) ← readOptionAccountDetails bs
      let (input_notes, bs) ← InputNotes.read_from bs
      let (output_notes, bs) ← OutputNotes.read_from bs
      let (details_len, bs) ← Felt.read_from bs
      .ok ((account_id, initial_account_hash, final_account_hash,
            account_details, input_notes, output_notes, details_len), bs) :
      Except DeserializationError
        ((AccountId × Option Digest × Digest × Option AccountDetails ×
          InputNotes × OutputNotes × Nat) × ByteStream)) with
  | .error e => .err e
  | .ok ((account_id, initial_account_hash, final_account_hash,
         account_details, input_notes, output_notes, details_len), bs) =>
    match readNotePairs debug_assertions details_len bs with
    | .panicked => .panicked
    | .err e => .err e
    | .ok output_note_details bs =>
      match (do
          let (tx_script_root, bs) ← readOptionDigest bs
          let (block_ref, bs) ← Word4.read_from bs
          let (proof, bs) ← Felt.read_from bs
          .ok ((tx_script_root, block_ref, proof), bs) :
          Except DeserializationError
            ((Option Digest × Digest × ExecutionProof) × ByteStream)) with
      | .error e => .err e
      | .ok ((tx_script_root, block_ref, proof), bs) =>
        let id := TransactionId.new initial_account_hash final_account_hash
          input_notes.commitment output_notes.commitment
        .ok { id, account_id, initial_account_hash, final_account_hash,
              account_details, input_notes, output_notes,
              output_note_details, tx_script_root, block_ref, proof } bs

-- ==============================================================================
-- Standardized note templates (src/miden-lib/src/notes/mod.rs)
-- ==============================================================================

/-- Modelled from the spec: the caller-supplied randomness source
(`FeltRng`).  `draw_word` hands out successive words of an abstract stream;
the counter records how many words have been drawn. -/
structure RngState where
  stream : Nat → Word4
  cnt : Nat

/-- `FeltRng::draw_word`: produce the next word of the stream. -/
def RngState.draw_word (r : RngState) : Word4 × RngState :=
  (r.stream r.cnt, { r with cnt := r.cnt + 1 })

/-- Modelled from the spec: the content hash of the precompiled SWAP script
(`include_bytes` of an externally assembled program; opaque to this
layer). -/
def SWAP_SCRIPT : NoteScript := 3

/-- Modelled from the spec: the content hash of the precompiled P2ID script. -/
def P2ID_SCRIPT : NoteScript := 1

/-- Modelled from the spec: `build_note_script` turns the precompiled
program bytes into a content-addressed script handle; with the fixed,
well-formed embedded bytes it succeeds. -/
def build_note_script (script : NoteScript) : Except NoteError NoteScript :=
  .ok script

/-- Modelled from the spec: `utils::build_p2id_recipient(target, serial_num)`
— the recipient digest of the not-yet-created pay-to-id note, derived from
the P2ID script hash, the inputs `[target, 0, 0, 0]` and the serial
number. -/
def build_p2id_recipient (target : AccountId) (serial_num : Word4) :
    Except NoteError Digest :=
  .ok (Hasher.hash_elements
    (serial_num.toList ++ [P2ID_SCRIPT, 0, 0, 0] ++ [target.toFelt, 0, 0, 0]))

/-- `create_swap_note` (miden-lib/src/notes/mod.rs, lines 56-90): draw the
repayment serial number, derive the repay recipient, lay out the 12 input
elements, build the note with tag `0` carrying only the offered asset, and
return it with the repayment serial number. -/
def create_swap_note (sender : AccountId) (offered_asset requested_asset : Asset)
    (rng : RngState) : Except NoteError (Note × Word4) := do
  let note_script ← build_note_script SWAP_SCRIPT
  let (repay_serial_num, rng) := rng.draw_word
  let recipient ← build_p2id_recipient sender repay_serial_num
  let asset_word := requested_asset.toWord
  let inputs := [recipient.w0, recipient.w1, recipient.w2, recipient.w3,
    asset_word.w0, asset_word.w1, asset_word.w2, asset_word.w3,
    sender.toFelt, FELT_ZERO, FELT_ZERO, FELT_ZERO]
  let tag : Felt := 0
  let (serial_num, _rng) := rng.draw_word
  let note ← Note.new note_script inputs [offered_asset] serial_num sender tag
  .ok (note, repay_serial_num)

-- ==============================================================================
-- Helper lemmas
-- ==============================================================================

/-- The duplicate scan returns `none` exactly when no earlier asset has a
later `is_same` partner. -/
theorem firstDuplicate_eq_none_iff (l : List Asset) :
    firstDuplicate l = none ↔
      List.Pairwise (fun a b => b.is_same a = false) l := by
  induction l with
  | nil => simp [firstDuplicate]
  | cons a rest ih =>
    rw [List.pairwise_cons]
    unfold firstDuplicate
    by_cases h : rest.any (fun b => b.is_same a) = true
    · rw [if_pos h]
      constructor
      · intro hc; cases hc
      · rintro ⟨hall, -⟩
        obtain ⟨b, hb, hsame⟩ := List.any_eq_true.mp h
        exact absurd (hall b hb) (by simp [hsame])
    · rw [if_neg h]
      constructor
      · intro hr
        refine ⟨?_, ih.mp hr⟩
        intro b hb
        by_contra hbs
        exact h (List.any_eq_true.mpr ⟨b, hb, by simpa using hbs⟩)
      · rintro ⟨-, hp⟩
        exact ih.mpr hp

/-- A successfully constructed `NoteAssets` holds exactly the given list and
an empty memo cell. -/
theorem NoteAssets.new_ok_shape {assets : List Asset} {a : NoteAssets}
    (h : NoteAssets.new assets = .ok a) :
    a = { assets := assets, hash := none } := by
  unfold NoteAssets.new at h
  split at h
  · cases h
  · split at h
    · cases h
    · split at h
      · cases h
      · cases h
      · exact (Except.ok.injEq _ _ |>.mp h.symm).symm ▸ rfl

/-- `NoteAssets::new` succeeds exactly when the list is non-empty, within
capacity and free of duplicates. -/
theorem NoteAssets.new_ok_iff (assets : List Asset) :
    (∃ a, NoteAssets.new assets = .ok a) ↔
      assets ≠ [] ∧ assets.length ≤ MAX_NUM_ASSETS ∧
        firstDuplicate assets = none := by
  unfold NoteAssets.new
  by_cases he : assets.isEmpty
  · simp [he, List.isEmpty_iff.mp he]
  · rw [if_neg he]
    by_cases hl : assets.length > MAX_NUM_ASSETS
    · rw [if_pos hl]
      simp [List.isEmpty_iff] at he
      simp [he, hl, Nat.not_le_of_lt hl]
    · rw [if_neg hl]
      simp [List.isEmpty_iff] at he
      cases hfd : firstDuplicate assets with
      | none => simp [he, Nat.le_of_not_lt hl]
      | some a => cases a <;> simp [he, Nat.le_of_not_lt hl]

/-- The flattened word sequence of an asset list has four elements per
asset. -/
theorem flatWords_length (l : List Asset) :
    (l.flatMap fun x => x.toWord.toList).length = 4 * l.length := by
  induction l with
  | nil => simp
  | cons a t ih =>
    show (a.toWord.toList ++ t.flatMap fun x => x.toWord.toList).length =
      4 * (t.length + 1)
    rw [List.length_append, ih]
    simp [Word4.toList]
    omega

-- ==============================================================================
-- C5: NoteAssets construction validation
-- ==============================================================================

/-- C5: `NoteAssets::new(assets)` succeeds if and only if the list has
between 1 and 255 elements and no two entries are the same asset; it fails
with `EmptyAssetList` on an empty list, `TooManyAssets` on more than 255
elements, and the matching duplicate-asset error when two entries represent
the same asset. -/
theorem C5_note_assets_new_validation (assets : List Asset) :
    ((∃ a, NoteAssets.new assets = .ok a) ↔
      1 ≤ assets.length ∧ assets.length ≤ 255 ∧
        List.Pairwise (fun a b => b.is_same a = false) assets) ∧
    (assets = [] → NoteAssets.new assets = .error .EmptyAssetList) ∧
    (assets.length > 255 →
      NoteAssets.new assets = .error (.TooManyAssets assets.length)) ∧
    (∀ f amount, assets.length ≤ 255 →
      firstDuplicate assets = some (.Fungible f amount) →
      NoteAssets.new assets = .error (.DuplicateFungibleAsset f)) ∧
    (∀ w, assets.length ≤ 255 →
      firstDuplicate assets = some (.NonFungible w) →
      NoteAssets.new assets = .error (.DuplicateNonFungibleAsset w)) := by
  refine ⟨?_, ?_, ?_, ?_, ?_⟩
  · rw [NoteAssets.new_ok_iff, ← firstDuplicate_eq_none_iff]
    constructor
    · rintro ⟨h1, h2, h3⟩
      exact ⟨List.length_pos.mpr h1, h2, h3⟩
    · rintro ⟨h1, h2, h3⟩
      exact ⟨List.length_pos.mp h1, h2, h3⟩
  · rintro rfl
    rfl
  · intro h
    have hne : assets ≠ [] := by
      intro e
      subst e
      simp at h
    unfold NoteAssets.new
    rw [if_neg (by simp [List.isEmpty_iff, hne]),
      if_pos (show assets.length > MAX_NUM_ASSETS from h)]
  · intro f amount hle hfd
    have hne : assets ≠ [] := by
      rintro rfl
      simp [firstDuplicate] at hfd
    unfold NoteAssets.new
    rw [if_neg (by simp [List.isEmpty_iff, hne]),
      if_neg (show ¬assets.length > MAX_NUM_ASSETS from Nat.not_lt.mpr hle), hfd]
  · intro w hle hfd
    have hne : assets ≠ [] := by
      rintro rfl
      simp [firstDuplicate] at hfd
    unfold NoteAssets.new
    rw [if_neg (by simp [List.isEmpty_iff, hne]),
      if_neg (show ¬assets.length > MAX_NUM_ASSETS from Nat.not_lt.mpr hle), hfd]

/-- Witness for C5 at a concrete input: the empty list is rejected with
`EmptyAssetList`. -/
theorem C5_note_assets_new_validation_witness :
    NoteAssets.new [] = .error .EmptyAssetList :=
  (C5_note_assets_new_validation []).2.1 rfl

-- ==============================================================================
-- C4: the asset commitment
-- ==============================================================================

/-- A sample fungible asset used in concrete witnesses. -/
def exAssetA : Asset := .Fungible ⟨10, true⟩ 1

/-- A second sample fungible asset with a different faucet. -/
def exAssetB : Asset := .Fungible ⟨11, true⟩ 1

/-- C4: for every validly constructed `NoteAssets`, `commitment()` equals
the sequential hash of the assets' 4-element words with exactly one all-zero
word appended when the asset count is odd; memoization never changes the
result; and the commitment is order-sensitive — two permutations of the same
asset multiset commit differently. -/
theorem C4_asset_commitment (assets : List Asset) (a : NoteAssets)
    (h : NoteAssets.new assets = .ok a) :
    (a.commitment = Hasher.hash_elements
        ((assets.flatMap fun x => x.toWord.toList) ++
          (if assets.length % 2 == 1 then Word4.zero.toList else [])) ∧
      a.memoize.commitment = a.commitment ∧
      a.memoize.memoize = a.memoize) ∧
    ∃ x y : NoteAssets,
      NoteAssets.new [exAssetA, exAssetB] = .ok x ∧
      NoteAssets.new [exAssetB, exAssetA] = .ok y ∧
      [exAssetA, exAssetB].Perm [exAssetB, exAssetA] ∧
      x.commitment ≠ y.commitment := by
  have hs := NoteAssets.new_ok_shape h
  subst hs
  refine ⟨⟨rfl, rfl, rfl⟩, ⟨[exAssetA, exAssetB], none⟩,
    ⟨[exAssetB, exAssetA], none⟩, rfl, rfl,
    List.Perm.swap exAssetB exAssetA [], by decide⟩

/-- Witness for C4 at a concrete input: the singleton container's
commitment is the hash of its padded word sequence. -/
theorem C4_asset_commitment_witness :
    (⟨[exAssetA], none⟩ : NoteAssets).commitment =
      Hasher.hash_elements
        ((([exAssetA] : List Asset).flatMap fun x => x.toWord.toList) ++
          (if ([exAssetA] : List Asset).length % 2 == 1 then
            Word4.zero.toList else [])) :=
  (C4_asset_commitment [exAssetA] ⟨[exAssetA], none⟩ rfl).1.1

-- ==============================================================================
-- C7: the padded element sequence
-- ==============================================================================

/-- `to_padded_assets` on a freshly constructed container is the flattened
word sequence, zero-padded by one word exactly when the count is odd. -/
theorem to_padded_assets_spec (assets : List Asset) :
    NoteAssets.to_padded_assets ⟨assets, none⟩ =
      (assets.flatMap fun x => x.toWord.toList) ++
        (if assets.length % 2 == 1 then Word4.zero.toList else []) := by
  unfold NoteAssets.to_padded_assets
  have hpa := flatWords_length assets
  set pa := assets.flatMap fun x => x.toWord.toList with hpadef
  by_cases hpar : assets.length % 2 = 0
  · have e0 : (assets.length % 2 == 0) = true := by simp [hpar]
    have e1 : (assets.length % 2 == 1) = false := by simp [hpar]
    simp only [e0, e1, if_true, Bool.false_eq_true, if_false, List.append_nil]
    rw [show assets.length * 4 = pa.length by omega]
    simp [List.take_length]
  · have e0 : (assets.length % 2 == 0) = false := by simp [hpar]
    have e1 : (assets.length % 2 == 1) = true := by
      simp only [beq_iff_eq]
      omega
    simp only [e0, e1, if_true, Bool.false_eq_true, if_false]
    rw [List.take_of_length_le (by omega),
      show (assets.length + 1) * 4 - pa.length = 4 by omega]
    rfl

/-- C7: for every validly constructed `NoteAssets`, `to_padded_assets()` is
the concatenation of the asset words, extended by exactly one all-zero word
when the count is odd; its length is a multiple of 4; and hashing it yields
exactly `commitment()`. -/
theorem C7_to_padded_assets (assets : List Asset) (a : NoteAssets)
    (h : NoteAssets.new assets = .ok a) :
    a.to_padded_assets =
      (assets.flatMap fun x => x.toWord.toList) ++
        (if assets.length % 2 == 1 then Word4.zero.toList else []) ∧
    a.to_padded_assets.length % 4 = 0 ∧
    Hasher.hash_elements a.to_padded_assets = a.commitment := by
  have hs := NoteAssets.new_ok_shape h
  subst hs
  refine ⟨to_padded_assets_spec assets, ?_, ?_⟩
  · rw [to_padded_assets_spec assets, List.length_append, flatWords_length]
    by_cases hpar : assets.length % 2 = 0
    · have e1 : (assets.length % 2 == 1) = false := by simp [hpar]
      simp only [e1, Bool.false_eq_true, if_false, List.length_nil]
      omega
    · have e1 : (assets.length % 2 == 1) = true := by
        simp only [beq_iff_eq]
        omega
      simp only [e1, if_true, Word4.zero, Word4.toList, List.length_cons,
        List.length_nil]
      omega
  · rw [to_padded_assets_spec assets]
    rfl

/-- Witness for C7 at a concrete input: the singleton container's padded
sequence has length a multiple of 4 and hashes to the commitment. -/
theorem C7_to_padded_assets_witness :
    (⟨[exAssetA], none⟩ : NoteAssets).to_padded_assets.length % 4 = 0 ∧
    Hasher.hash_elements (⟨[exAssetA], none⟩ : NoteAssets).to_padded_assets =
      (⟨[exAssetA], none⟩ : NoteAssets).commitment :=
  ⟨(C7_to_padded_assets [exAssetA] ⟨[exAssetA], none⟩ rfl).2.1,
    (C7_to_padded_assets [exAssetA] ⟨[exAssetA], none⟩ rfl).2.2⟩

-- ==============================================================================
-- Inversion facts about `build`
-- ==============================================================================

/-- Inversion for `build`: on success, the unknown-details check passed, the
disclosed-output mapping is passed through unchanged, and the stored id is
the recomputation from the public fields; and when the unknown-details check
passes, `build` never raises `NoteDetailsForUnknownNotes`. -/
theorem build_inversion (b : ProvenTransactionBuilder) :
    (∀ tx, b.build = .ok tx →
      b.unknown_ids = [] ∧
      tx.output_note_details = b.output_note_details ∧
      TransactionId.from_proven_tx tx = tx.id ∧
      tx.account_id = b.account_id ∧
      tx.account_details = b.account_details ∧
      tx.initial_account_hash = b.initial_account_hash ∧
      tx.final_account_hash = b.final_account_hash) ∧
    (b.unknown_ids = [] →
      ∀ ids, b.build ≠ .error (.NoteDetailsForUnknownNotes ids)) := by
  by_cases hu : b.unknown_ids = []
  case neg =>
    have hb : b.build = .error (.NoteDetailsForUnknownNotes b.unknown_ids) := by
      unfold ProvenTransactionBuilder.build
      rw [if_pos hu]
    refine ⟨?_, ?_⟩
    · intro tx htx
      rw [hb] at htx
      cases htx
    · intro h
      exact absurd h hu
  case pos =>
    cases hin : InputNotes.new b.input_notes with
    | error e =>
      have hb : b.build = .error (.InputNotesError e) := by
        simp [ProvenTransactionBuilder.build, hu, hin]
      refine ⟨fun tx htx => ?_, fun _ ids hcon => ?_⟩
      · rw [hb] at htx; cases htx
      · rw [hb] at hcon; simp at hcon
    | ok innotes =>
      cases hout : OutputNotes.new b.output_notes with
      | error e =>
        have hb : b.build = .error (.OutputNotesError e) := by
          simp [ProvenTransactionBuilder.build, hu, hin, hout]
        refine ⟨fun tx htx => ?_, fun _ ids hcon => ?_⟩
        · rw [hb] at htx; cases htx
        · rw [hb] at hcon; simp at hcon
      | ok outnotes =>
        by_cases hoff : (!b.account_id.is_on_chain && b.account_details.isSome) = true
        · have hb : b.build = .error (.OffChainAccountWithDetails b.account_id) := by
            simp [ProvenTransactionBuilder.build, hu, hin, hout, hoff]
          refine ⟨fun tx htx => ?_, fun _ ids hcon => ?_⟩
          · rw [hb] at htx; cases htx
          · rw [hb] at hcon; simp at hcon
        · by_cases hon : b.account_id.is_on_chain = true
          · cases hdet : b.account_details with
            | none =>
              have hb : b.build = .error (.OnChainAccountMissingDetails b.account_id) := by
                simp [ProvenTransactionBuilder.build, hu, hin, hout, hoff, hon, hdet]
              refine ⟨fun tx htx => ?_, fun _ ids hcon => ?_⟩
              · rw [hb] at htx; cases htx
              · rw [hb] at hcon; simp at hcon
            | some details =>
              cases hinit : b.initial_account_hash with
              | none =>
                cases details with
                | Delta delta =>
                  have hb : b.build = .error (.NewOnChainAccountRequiresFullDetails b.account_id) := by
                    simp [ProvenTransactionBuilder.build, hu, hin, hout, hoff, hon, hdet, hinit]
                  refine ⟨fun tx htx => ?_, fun _ ids hcon => ?_⟩
                  · rw [hb] at htx; cases htx
                  · rw [hb] at hcon; simp at hcon
                | Full account =>
                  by_cases hid : account.id = b.account_id
                  · by_cases hhash : account.hash = b.final_account_hash
                    · have hb : b.build = .ok (b.assemble innotes outnotes) := by
                        simp [ProvenTransactionBuilder.build, hu, hin, hout, hoff, hon,
                          hdet, hinit, hid, hhash]
                      refine ⟨fun tx htx => ?_, fun _ ids hcon => ?_⟩
                      · rw [hb] at htx
                        injection htx with htx
                        subst htx
                        exact ⟨hu, rfl, rfl, rfl, hdet, hinit, rfl⟩
                      · rw [hb] at hcon; simp at hcon
                    · have hb : b.build = .error (.AccountFinalHashMismatch b.final_account_hash account.hash) := by
                        simp [ProvenTransactionBuilder.build, hu, hin, hout, hoff, hon,
                          hdet, hinit, hid, hhash]
                      refine ⟨fun tx htx => ?_, fun _ ids hcon => ?_⟩
                      · rw [hb] at htx; cases htx
                      · rw [hb] at hcon; simp at hcon
                  · have hb : b.build = .error (.AccountIdMismatch b.account_id account.id) := by
                      simp [ProvenTransactionBuilder.build, hu, hin, hout, hoff, hon,
                        hdet, hinit, hid]
                    refine ⟨fun tx htx => ?_, fun _ ids hcon => ?_⟩
                    · rw [hb] at htx; cases htx
                    · rw [hb] at hcon; simp at hcon
              | some h0 =>
                cases details with
                | Delta delta =>
                  have hb : b.build = .ok (b.assemble innotes outnotes) := by
                    simp [ProvenTransactionBuilder.build, hu, hin, hout, hoff, hon, hdet, hinit]
                  refine ⟨fun tx htx => ?_, fun _ ids hcon => ?_⟩
                  · rw [hb] at htx
                    injection htx with htx
                    subst htx
                    exact ⟨hu, rfl, rfl, rfl, hdet, hinit, rfl⟩
                  · rw [hb] at hcon; simp at hcon
                | Full account =>
                  have hb : b.build = .error (.ExistingOnChainAccountRequiresDeltaDetails b.account_id) := by
                    simp [ProvenTransactionBuilder.build, hu, hin, hout, hoff, hon, hdet, hinit]
                  refine ⟨fun tx htx => ?_, fun _ ids hcon => ?_⟩
                  · rw [hb] at htx; cases htx
                  · rw [hb] at hcon; simp at hcon
          · have hnone : b.account_details = none := by
              cases hq : b.account_details with
              | none => rfl
              | some d =>
                exfalso
                apply hoff
                have hfalse : b.account_id.is_on_chain = false := by
                  cases hb2 : b.account_id.is_on_chain
                  · rfl
                  · exact absurd hb2 hon
                simp [hfalse, hq]
            have hb : b.build = .ok (b.assemble innotes outnotes) := by
              simp [ProvenTransactionBuilder.build, hu, hin, hout, hon, hnone]
            refine ⟨fun tx htx => ?_, fun _ ids hcon => ?_⟩
            · rw [hb] at htx
              injection htx with htx
              subst htx
              exact ⟨hu, rfl, rfl, rfl, rfl, rfl, rfl⟩
            · rw [hb] at hcon; simp at hcon

-- ==============================================================================
-- C3: details for unknown notes
-- ==============================================================================

/-- C3: `build` fails with `NoteDetailsForUnknownNotes`, naming exactly the
offending note ids, if and only if some key of the disclosed-output-note
mapping does not occur among the output note envelopes' ids; and on success
the returned transaction's `output_note_details` mapping is the accumulated
mapping unchanged. -/
theorem C3_note_details_for_unknown_notes (b : ProvenTransactionBuilder) :
    (∀ ids, b.build = .error (.NoteDetailsForUnknownNotes ids) ↔
      (ids = b.unknown_ids ∧ b.unknown_ids ≠ [])) ∧
    (∀ k, k ∈ b.unknown_ids ↔
      (k ∈ b.output_note_details.map Prod.fst ∧
        k ∉ b.output_notes.map NoteEnvelope.note_id)) ∧
    (∀ tx, b.build = .ok tx →
      tx.output_note_details = b.output_note_details) := by
  refine ⟨?_, ?_, ?_⟩
  · intro ids
    constructor
    · intro h
      by_cases hu : b.unknown_ids = []
      · exact absurd h ((build_inversion b).2 hu ids)
      · have hb : b.build = .error (.NoteDetailsForUnknownNotes b.unknown_ids) := by
          unfold ProvenTransactionBuilder.build
          rw [if_pos hu]
        rw [hb] at h
        injection h with h
        injection h with h
        exact ⟨h.symm, hu⟩
    · rintro ⟨rfl, hu⟩
      unfold ProvenTransactionBuilder.build
      rw [if_pos hu]
  · intro k
    simp [ProvenTransactionBuilder.unknown_ids, List.mem_filter]
  · intro tx htx
    exact ((build_inversion b).1 tx htx).2.1

/-- A sample full note used in concrete witnesses. -/
def exNote : Note :=
  { script := 0, inputs := [], assets := ⟨[exAssetA], none⟩,
    serial_num := Word4.zero, sender := ⟨5, false⟩, tag := 0 }

/-- A sample builder whose disclosed-output mapping holds the key 42 while
no output envelope carries that id. -/
def exBuilderUnknown : ProvenTransactionBuilder :=
  { account_id := ⟨5, false⟩, initial_account_hash := none,
    final_account_hash := ⟨1, 2, 3, 4⟩, account_details := none,
    input_notes := [], output_notes := [],
    output_note_details := [(42, exNote)],
    tx_script_root := none, block_ref := Word4.zero, proof := 0 }

/-- Witness for C3 at a concrete input: the sample builder fails with
exactly the offending id 42. -/
theorem C3_note_details_for_unknown_notes_witness :
    exBuilderUnknown.build = .error (.NoteDetailsForUnknownNotes [42]) :=
  ((C3_note_details_for_unknown_notes exBuilderUnknown).1 [42]).mpr
    ⟨rfl, by decide⟩

-- ==============================================================================
-- C1: the account-disclosure shape rules
-- ==============================================================================

/-- C1: with the unknown-details check and the two note-collection
constructions passing, `build` enforces the account-disclosure shape rules
exactly: off-chain with details fails; on-chain without details fails; of
the four on-chain combinations of (is-new × Full/Delta), exactly new+Full
(with matching id and final hash) and existing+Delta succeed, and every
other combination fails with its distinct error. -/
theorem C1_account_disclosure_matrix (b : ProvenTransactionBuilder)
    (innotes : InputNotes) (outnotes : OutputNotes)
    (h1 : b.unknown_ids = [])
    (hin : InputNotes.new b.input_notes = .ok innotes)
    (hout : OutputNotes.new b.output_notes = .ok outnotes) :
    (b.account_id.is_on_chain = false → b.account_details.isSome = true →
      b.build = .error (.OffChainAccountWithDetails b.account_id)) ∧
    (b.account_id.is_on_chain = true → b.account_details = none →
      b.build = .error (.OnChainAccountMissingDetails b.account_id)) ∧
    (∀ delta, b.account_id.is_on_chain = true →
      b.initial_account_hash = none →
      b.account_details = some (.Delta delta) →
      b.build = .error (.NewOnChainAccountRequiresFullDetails b.account_id)) ∧
    (∀ account, b.account_id.is_on_chain = true →
      b.initial_account_hash = none →
      b.account_details = some (.Full account) →
      account.id = b.account_id → account.hash = b.final_account_hash →
      b.build = .ok (b.assemble innotes outnotes)) ∧
    (∀ account, b.account_id.is_on_chain = true →
      b.initial_account_hash = none →
      b.account_details = some (.Full account) →
      account.id ≠ b.account_id →
      b.build = .error (.AccountIdMismatch b.account_id account.id)) ∧
    (∀ account, b.account_id.is_on_chain = true →
      b.initial_account_hash = none →
      b.account_details = some (.Full account) →
      account.id = b.account_id → account.hash ≠ b.final_account_hash →
      b.build = .error (.AccountFinalHashMismatch b.final_account_hash account.hash)) ∧
    (∀ account h0, b.account_id.is_on_chain = true →
      b.initial_account_hash = some h0 →
      b.account_details = some (.Full account) →
      b.build = .error (.ExistingOnChainAccountRequiresDeltaDetails b.account_id)) ∧
    (∀ delta h0, b.account_id.is_on_chain = true →
      b.initial_account_hash = some h0 →
      b.account_details = some (.Delta delta) →
      b.build = .ok (b.assemble innotes outnotes)) ∧
    (b.account_id.is_on_chain = false → b.account_details = none →
      b.build = .ok (b.assemble innotes outnotes)) := by
  refine ⟨?_, ?_, ?_, ?_, ?_, ?_, ?_, ?_, ?_⟩
  · intro hoff hsome
    simp [ProvenTransactionBuilder.build, h1, hin, hout, hoff, hsome]
  · intro hon hdet
    simp [ProvenTransactionBuilder.build, h1, hin, hout, hon, hdet]
  · intro delta hon hinit hdet
    simp [ProvenTransactionBuilder.build, h1, hin, hout, hon, hinit, hdet]
  · intro account hon hinit hdet hid hhash
    simp [ProvenTransactionBuilder.build, h1, hin, hout, hon, hinit, hdet,
      hid, hhash]
  · intro account hon hinit hdet hid
    simp [ProvenTransactionBuilder.build, h1, hin, hout, hon, hinit, hdet, hid]
  · intro account hon hinit hdet hid hhash
    simp [ProvenTransactionBuilder.build, h1, hin, hout, hon, hinit, hdet,
      hid, hhash]
  · intro account h0 hon hinit hdet
    simp [ProvenTransactionBuilder.build, h1, hin, hout, hon, hinit, hdet]
  · intro delta h0 hon hinit hdet
    simp [ProvenTransactionBuilder.build, h1, hin, hout, hon, hinit, hdet]
  · intro hoff hdet
    simp [ProvenTransactionBuilder.build, h1, hin, hout, hoff, hdet]

/-- A sample builder for an off-chain account carrying account details. -/
def exBuilderOffChainDetails : ProvenTransactionBuilder :=
  { account_id := ⟨5, false⟩, initial_account_hash := none,
    final_account_hash := ⟨1, 2, 3, 4⟩,
    account_details := some (.Delta ⟨7⟩),
    input_notes := [], output_notes := [], output_note_details := [],
    tx_script_root := none, block_ref := Word4.zero, proof := 0 }

/-- Witness for C1 at a concrete input: the off-chain builder with details
fails with `OffChainAccountWithDetails`. -/
theorem C1_account_disclosure_matrix_witness :
    exBuilderOffChainDetails.build =
      .error (.OffChainAccountWithDetails exBuilderOffChainDetails.account_id) :=
  (C1_account_disclosure_matrix exBuilderOffChainDetails ⟨[]⟩ ⟨[]⟩
    rfl rfl rfl).1 rfl rfl

-- ==============================================================================
-- C2: the transaction id is recomputable from public data
-- ==============================================================================

/-- C2: `TransactionId` is a pure function of the four words — the initial
account hash or the all-zero sentinel, the final account hash and the two
note-set commitments — hashed once as 16 concatenated elements; and for
every `ProvenTransaction` produced by the builder or by deserialization,
recomputing the id from its public fields yields the stored id. -/
theorem C2_transaction_id_recomputable :
    (∀ (init : Option Digest) (fin inh outh : Digest),
      TransactionId.new init fin inh outh =
        ⟨Hasher.hash_elements ((init.getD Digest.default).toList ++
          fin.toList ++ inh.toList ++ outh.toList)⟩ ∧
      ((init.getD Digest.default).toList ++ fin.toList ++ inh.toList ++
        outh.toList).length = 16) ∧
    (∀ (b : ProvenTransactionBuilder) (tx : ProvenTransaction),
      b.build = .ok tx → TransactionId.from_proven_tx tx = tx.id) ∧
    (∀ (debug_assertions : Bool) (bs : ByteStream) tx rest,
      ProvenTransaction.read_from debug_assertions bs = .ok tx rest →
      TransactionId.from_proven_tx tx = tx.id) := by
  refine ⟨?_, ?_, ?_⟩
  · intro init fin inh outh
    exact ⟨rfl, by simp [Word4.toList]⟩
  · intro b tx h
    exact ((build_inversion b).1 tx h).2.2.1
  · intro debug_assertions bs tx rest h
    unfold ProvenTransaction.read_from at h
    split at h
    · cases h
    · split at h
      · cases h
      · cases h
      · split at h
        · cases h
        · injection h with h1 h2
          subst h1
          rfl

/-- A sample builder for an off-chain account with no details, which builds
successfully. -/
def exBuilderOk : ProvenTransactionBuilder :=
  { account_id := ⟨5, false⟩, initial_account_hash := none,
    final_account_hash := ⟨1, 2, 3, 4⟩, account_details := none,
    input_notes := [], output_notes := [], output_note_details := [],
    tx_script_root := none, block_ref := Word4.zero, proof := 0 }

/-- The transaction the sample builder produces. -/
def exTxOk : ProvenTransaction := exBuilderOk.assemble ⟨[]⟩ ⟨[]⟩

/-- Witness for C2 at a concrete input: the sample build succeeds and the
recomputed id equals the stored id. -/
theorem C2_transaction_id_recomputable_witness :
    exBuilderOk.build = .ok exTxOk ∧
    TransactionId.from_proven_tx exTxOk = exTxOk.id :=
  ⟨rfl, C2_transaction_id_recomputable.2.1 exBuilderOk exTxOk rfl⟩

-- ==============================================================================
-- C6: the swap note template
-- ==============================================================================

/-- C6: `create_swap_note` first draws the repayment serial number, derives
the repay-recipient digest from the sender and that serial number, and
returns a note whose input vector is exactly the 12 elements
[repay-recipient (4), requested-asset word (4), sender id, 0, 0, 0], whose
tag is 0 and whose asset list contains only the offered asset, paired with
the repayment serial number; the note's own serial number is the second
draw. -/
theorem C6_create_swap_note (sender : AccountId)
    (offered_asset requested_asset : Asset) (rng : RngState) :
    ∃ note : Note, ∃ recipient : Digest,
      create_swap_note sender offered_asset requested_asset rng =
        .ok (note, rng.stream rng.cnt) ∧
      build_p2id_recipient sender (rng.stream rng.cnt) = .ok recipient ∧
      note.inputs = [recipient.w0, recipient.w1, recipient.w2, recipient.w3,
        requested_asset.toWord.w0, requested_asset.toWord.w1,
        requested_asset.toWord.w2, requested_asset.toWord.w3,
        sender.toFelt, 0, 0, 0] ∧
      note.inputs.length = 12 ∧
      note.tag = 0 ∧
      note.assets.assets = [offered_asset] ∧
      note.serial_num = rng.stream (rng.cnt + 1) ∧
      note.script = SWAP_SCRIPT ∧
      note.sender = sender := by
  refine ⟨_, _, rfl, rfl, rfl, rfl, rfl, rfl, rfl, rfl, rfl⟩

-- ==============================================================================
-- C8: NoteAssets deserialization and the count byte 255
-- ==============================================================================

/-- C8 (code evaluation at the failing input): on the single count byte
255, `let count = source.read_u8()? + 1` overflows `u8` — the read aborts in
a build with overflow checks and, with wrapping, reads zero assets (not 256)
and reports `EmptyAssetList` as a decode error; every other count byte, and
every input in a wrapping build, decodes without aborting. -/
theorem C8_count_byte_overflow :
    NoteAssets.read_from true [255] = .panicked ∧
    NoteAssets.read_from false [255] =
      .err (.InvalidValue (reprStr NoteError.EmptyAssetList)) ∧
    (∀ (bs : ByteStream) (b : Nat), bs.head? = some b → b % 256 ≠ 255 →
      NoteAssets.read_from true bs ≠ .panicked) ∧
    (∀ bs : ByteStream, NoteAssets.read_from false bs ≠ .panicked) := by
  refine ⟨rfl, rfl, ?_, ?_⟩
  · intro bs b hhead hne
    cases bs with
    | nil => simp at hhead
    | cons b0 rest =>
      injection hhead with hb
      subst hb
      have hcond : (true && (b0 % 256 == 255)) = false := by simp [hne]
      simp only [NoteAssets.read_from]
      rw [hcond]
      simp only [Bool.false_eq_true, if_false]
      cases hbatch : Asset.read_batch_from ((b0 % 256 + 1) % 256) rest with
      | error e => simp [hbatch]
      | ok p =>
        obtain ⟨assets, rest2⟩ := p
        cases hnew : NoteAssets.new assets with
        | error e => simp [hbatch, hnew]
        | ok a => simp [hbatch, hnew]
  · intro bs
    cases bs with
    | nil => simp [NoteAssets.read_from]
    | cons b0 rest =>
      simp only [NoteAssets.read_from, Bool.false_and, Bool.false_eq_true,
        if_false]
      cases hbatch : Asset.read_batch_from ((b0 % 256 + 1) % 256) rest with
      | error e => simp [hbatch]
      | ok p =>
        obtain ⟨assets, rest2⟩ := p
        cases hnew : NoteAssets.new assets with
        | error e => simp [hbatch, hnew]
        | ok a => simp [hbatch, hnew]

/-- Witness for C8 at a concrete input: the count byte 0 decodes without
aborting in a build with overflow checks. -/
theorem C8_count_byte_overflow_witness :
    NoteAssets.read_from true [0] ≠ .panicked :=
  C8_count_byte_overflow.2.2.1 [0] 0 rfl (by decide)

-- ==============================================================================
-- C9: the sentinel precondition is a debug assertion only
-- ==============================================================================

/-- Counterexample to C9 as stated: with debug assertions compiled out (the
release configuration), both `TransactionId::new` and
`ProvenTransactionBuilder::new` accept an initial account hash equal to the
all-zero sentinel — the precondition is not enforced in every build
configuration. -/
theorem C9_sentinel_check_counterexample :
    TransactionId.new_checked false (some Digest.default) Word4.zero
        Word4.zero Word4.zero =
      some (TransactionId.new (some Digest.default) Word4.zero Word4.zero
        Word4.zero) ∧
    ProvenTransactionBuilder.new_checked false ⟨5, true⟩
        (some Digest.default) Word4.zero Word4.zero 0 =
      some (ProvenTransactionBuilder.new ⟨5, true⟩ (some Digest.default)
        Word4.zero Word4.zero 0) :=
  ⟨rfl, rfl⟩

/-- C9 (amended): the sentinel precondition is checked by `debug_assert_ne!`
and therefore only in builds with debug assertions enabled: there it rejects
exactly a present all-zero initial hash; with debug assertions compiled out
the constructors perform no check, and `TransactionId::new` then conflates
the all-zero initial hash with an absent one. -/
theorem C9_sentinel_check_debug_only (init : Option Digest)
    (fin inh outh blk : Digest) (aid : AccountId) (pf : ExecutionProof) :
    TransactionId.new_checked true (some Digest.default) fin inh outh =
      none ∧
    (init ≠ some Digest.default →
      TransactionId.new_checked true init fin inh outh =
        some (TransactionId.new init fin inh outh)) ∧
    TransactionId.new_checked false init fin inh outh =
      some (TransactionId.new init fin inh outh) ∧
    ProvenTransactionBuilder.new_checked true aid (some Digest.default)
      fin blk pf = none ∧
    (init ≠ some Digest.default →
      ProvenTransactionBuilder.new_checked true aid init fin blk pf =
        some (ProvenTransactionBuilder.new aid init fin blk pf)) ∧
    ProvenTransactionBuilder.new_checked false aid init fin blk pf =
      some (ProvenTransactionBuilder.new aid init fin blk pf) ∧
    TransactionId.new (some Digest.default) fin inh outh =
      TransactionId.new none fin inh outh := by
  refine ⟨rfl, ?_, ?_, rfl, ?_, ?_, rfl⟩
  · intro h
    simp [TransactionId.new_checked, TransactionId.new_assert_ok, h]
  · simp [TransactionId.new_checked, TransactionId.new_assert_ok]
  · intro h
    simp [ProvenTransactionBuilder.new_checked, TransactionId.new_assert_ok, h]
  · simp [ProvenTransactionBuilder.new_checked, TransactionId.new_assert_ok]

/-- Witness for the amended C9 at a concrete input: with debug assertions
enabled, a non-sentinel initial hash passes the check. -/
theorem C9_sentinel_check_debug_only_witness :
    TransactionId.new_checked true none Word4.zero Word4.zero Word4.zero =
      some (TransactionId.new none Word4.zero Word4.zero Word4.zero) :=
  (C9_sentinel_check_debug_only none Word4.zero Word4.zero Word4.zero
    Word4.zero ⟨5, true⟩ 0).2.1 (by simp)

-- ==============================================================================
-- C10: deserialization performs no cross-field validation
-- ==============================================================================

/-- The builder holding exactly a transaction's fields, used to express that
a decoded transaction violates the builder's rules. -/
def ProvenTransaction.toBuilder (tx : ProvenTransaction) :
    ProvenTransactionBuilder :=
  { account_id := tx.account_id,
    initial_account_hash := tx.initial_account_hash,
    final_account_hash := tx.final_account_hash,
    account_details := tx.account_details,
    input_notes := tx.input_notes.notes,
    output_notes := tx.output_notes.notes,
    output_note_details := tx.output_note_details,
    tx_script_root := tx.tx_script_root,
    block_ref := tx.block_ref,
    proof := tx.proof }

/-- A decoded-shape transaction with an off-chain account id and account
details present — a shape `build` rejects. -/
def exTxOffChainDetails : ProvenTransaction :=
  { id := TransactionId.new none ⟨1, 2, 3, 4⟩ (InputNotes.commitment ⟨[]⟩)
      (OutputNotes.commitment ⟨[]⟩),
    account_id := ⟨5, false⟩, initial_account_hash := none,
    final_account_hash := ⟨1, 2, 3, 4⟩,
    account_details := some (.Delta ⟨7⟩),
    input_notes := ⟨[]⟩, output_notes := ⟨[]⟩, output_note_details := [],
    tx_script_root := none, block_ref := Word4.zero, proof := 0 }

/-- The wire image of `exTxOffChainDetails`. -/
def exBytesOffChainDetails : ByteStream := exTxOffChainDetails.write_into

/-- A decoded-shape transaction with an on-chain account id and no account
details — a shape `build` rejects. -/
def exTxOnChainMissing : ProvenTransaction :=
  { id := TransactionId.new none ⟨1, 2, 3, 4⟩ (InputNotes.commitment ⟨[]⟩)
      (OutputNotes.commitment ⟨[]⟩),
    account_id := ⟨6, true⟩, initial_account_hash := none,
    final_account_hash := ⟨1, 2, 3, 4⟩, account_details := none,
    input_notes := ⟨[]⟩, output_notes := ⟨[]⟩, output_note_details := [],
    tx_script_root := none, block_ref := Word4.zero, proof := 0 }

/-- The wire image of `exTxOnChainMissing`. -/
def exBytesOnChainMissing : ByteStream := exTxOnChainMissing.write_into

/-- A decoded-shape transaction disclosing a note under the key 42 while no
output envelope carries that id — a shape `build` rejects. -/
def exTxUnknownKey : ProvenTransaction :=
  { id := TransactionId.new none ⟨1, 2, 3, 4⟩ (InputNotes.commitment ⟨[]⟩)
      (OutputNotes.commitment ⟨[]⟩),
    account_id := ⟨5, false⟩, initial_account_hash := none,
    final_account_hash := ⟨1, 2, 3, 4⟩, account_details := none,
    input_notes := ⟨[]⟩, output_notes := ⟨[]⟩,
    output_note_details := [(42, exNote)],
    tx_script_root := none, block_ref := Word4.zero, proof := 0 }

/-- The wire image of `exTxUnknownKey`. -/
def exBytesUnknownKey : ByteStream := exTxUnknownKey.write_into

/-- C10: `read_from` performs none of the builder's cross-field validation:
there are byte sequences it accepts — in every build configuration — whose
decoded transaction has an off-chain account id with details present, an
on-chain account with absent details, or a disclosed-output key absent from
the output note set; the only recomputed field is the id. -/
theorem C10_read_from_skips_validation :
    ProvenTransaction.read_from false exBytesOffChainDetails =
      .ok exTxOffChainDetails [] ∧
    ProvenTransaction.read_from true exBytesOffChainDetails =
      .ok exTxOffChainDetails [] ∧
    exTxOffChainDetails.account_id.is_on_chain = false ∧
    exTxOffChainDetails.account_details.isSome = true ∧
    exTxOffChainDetails.toBuilder.build =
      .error (.OffChainAccountWithDetails ⟨5, false⟩) ∧
    ProvenTransaction.read_from false exBytesOnChainMissing =
      .ok exTxOnChainMissing [] ∧
    exTxOnChainMissing.account_id.is_on_chain = true ∧
    exTxOnChainMissing.account_details = none ∧
    exTxOnChainMissing.toBuilder.build =
      .error (.OnChainAccountMissingDetails ⟨6, true⟩) ∧
    ProvenTransaction.read_from false exBytesUnknownKey =
      .ok exTxUnknownKey [] ∧
    exTxUnknownKey.toBuilder.build =
      .error (.NoteDetailsForUnknownNotes [42]) ∧
    exTxOffChainDetails.id = TransactionId.from_proven_tx exTxOffChainDetails := by
  refine ⟨?_, ?_, rfl, rfl, rfl, ?_, rfl, rfl, rfl, ?_, rfl, rfl⟩ <;> rfl
